import Mathlib

/-!
Verification of `src/add_arduino_esp32_support.py`, a build-configuration
script that appends preprocessor definitions (CPPDEFINES) and include
search paths (CPPPATH) to a host-supplied build environment via
`env.Append`.  The script is a single unconditional call; we embed the
environment as a record of the two ordered sequences it mutates plus an
abstract remainder standing for every other construction variable the
host environment carries.
-/

/-- The value of a preprocessor definition: the source uses Python
integers (`200`, `1`, `240000000`) and one string
(`'\\"mbedtls/esp_config.h\\"'`). -/
inductive DefValue where
  | intVal : Int → DefValue
  | strVal : String → DefValue
deriving DecidableEq, Repr

/-- A CPPDEFINES entry.  SCons accepts either a bare macro name or a
(name, value) tuple; the source uses only tuples. -/
inductive CppDefine where
  | bare : String → CppDefine
  | pair : String → DefValue → CppDefine
deriving DecidableEq, Repr

/-- Whether a CPPDEFINES entry carries a value. -/
def CppDefine.isPair : CppDefine → Bool
  | .bare _ => false
  | .pair _ _ => true

/-- The build environment handle, as far as the script touches it:
the CPPDEFINES sequence, the CPPPATH sequence, and an abstract field
standing for every other construction variable of the host environment
(SCons stores them as a name-to-value mapping; we keep it opaque as an
association list since the script never reads or writes it). -/
structure BuildEnvironment where
  cppdefines : List CppDefine
  cpppath : List String
  otherVars : List (String × String)
deriving DecidableEq, Repr

/-- The six CPPDEFINES entries listed in the `env.Append` call of
`src/add_arduino_esp32_support.py`, lines 5-12, in source order. -/
def newCppDefines : List CppDefine :=
  [ .pair "ARDUINO" (.intVal 200),
    .pair "ESP32" (.intVal 1),
    .pair "ESP_PLATFORM" (.intVal 1),
    .pair "F_CPU" (.intVal 240000000),
    .pair "HAVE_CONFIG_H" (.intVal 1),
    .pair "MBEDTLS_CONFIG_FILE" (.strVal "\\\"mbedtls/esp_config.h\\\"") ]

/-- The three CPPPATH entries listed in the `env.Append` call of
`src/add_arduino_esp32_support.py`, lines 13-17, in source order. -/
def newCppPath : List String :=
  [ "${PROJECTSRC_DIR}",
    "${PROJECT_DIR}/components/arduino/cores/esp32",
    "${PROJECT_DIR}/components/arduino/variants/esp32" ]

/-- The whole script: one `env.Append(CPPDEFINES=[...], CPPPATH=[...])`
call.  SCons `Append` extends each named construction variable with the
supplied list, leaving every other variable untouched. -/
def addArduinoEsp32Support (env : BuildEnvironment) : BuildEnvironment :=
  { env with
    cppdefines := env.cppdefines ++ newCppDefines,
    cpppath := env.cpppath ++ newCppPath }

/-- The script wrapped in an error monad.  The source contains no
conditional, no validation and no raise statement, so the embedding is
unconditionally successful. -/
def addArduinoEsp32SupportE (env : BuildEnvironment) :
    Except String BuildEnvironment :=
  Except.ok (addArduinoEsp32Support env)

/-- Claim C1: after one invocation the CPPDEFINES sequence equals its
previous contents followed by exactly the six entries ARDUINO=200,
ESP32=1, ESP_PLATFORM=1, F_CPU=240000000, HAVE_CONFIG_H=1,
MBEDTLS_CONFIG_FILE=(quoted string), in that order, nothing else. -/
theorem cppdefines_append_exact (env : BuildEnvironment) :
    (addArduinoEsp32Support env).cppdefines =
      env.cppdefines ++
        [ .pair "ARDUINO" (.intVal 200),
          .pair "ESP32" (.intVal 1),
          .pair "ESP_PLATFORM" (.intVal 1),
          .pair "F_CPU" (.intVal 240000000),
          .pair "HAVE_CONFIG_H" (.intVal 1),
          .pair "MBEDTLS_CONFIG_FILE" (.strVal "\\\"mbedtls/esp_config.h\\\"") ] :=
  rfl

/-- Claim C2: after one invocation the CPPPATH sequence equals its
previous contents followed by exactly the three template strings, in
that order, nothing else. -/
theorem cpppath_append_exact (env : BuildEnvironment) :
    (addArduinoEsp32Support env).cpppath =
      env.cpppath ++
        [ "${PROJECTSRC_DIR}",
          "${PROJECT_DIR}/components/arduino/cores/esp32",
          "${PROJECT_DIR}/components/arduino/variants/esp32" ] :=
  rfl

/-- Claim C3: the value stored for MBEDTLS_CONFIG_FILE is the character
sequence backslash, double quote, `mbedtls/esp_config.h`, backslash,
double quote - the quoted string literal with escaped double quotes -
and it is the sixth appended definition. -/
theorem mbedtls_config_file_value :
    newCppDefines.get? 5 =
      some (.pair "MBEDTLS_CONFIG_FILE" (.strVal "\\\"mbedtls/esp_config.h\\\"")) ∧
    String.data "\\\"mbedtls/esp_config.h\\\"" =
      ['\\', '"'] ++ String.data "mbedtls/esp_config.h" ++ ['\\', '"'] := by
  constructor <;> rfl

/-- Claim C4: the routine only appends: the previous CPPDEFINES and
CPPPATH contents are each a prefix of the resulting sequences, so no
pre-existing entry is removed, reordered, or deduplicated. -/
theorem append_only_preserves_prefixes (env : BuildEnvironment) :
    env.cppdefines <+: (addArduinoEsp32Support env).cppdefines ∧
    env.cpppath <+: (addArduinoEsp32Support env).cpppath :=
  ⟨⟨newCppDefines, rfl⟩, ⟨newCppPath, rfl⟩⟩

/-- Claim C5: calling the routine twice appends the six definitions and
three include paths a second time: each of the nine entries appears
twice (its count grows by exactly two), relative order is preserved
(the result is the old contents followed by the suffix twice), and the
routine is not idempotent on the sequence contents. -/
theorem double_invocation_appends_twice (env : BuildEnvironment) :
    (addArduinoEsp32Support (addArduinoEsp32Support env)).cppdefines =
      env.cppdefines ++ newCppDefines ++ newCppDefines ∧
    (addArduinoEsp32Support (addArduinoEsp32Support env)).cpppath =
      env.cpppath ++ newCppPath ++ newCppPath ∧
    (∀ d ∈ newCppDefines,
      ((addArduinoEsp32Support (addArduinoEsp32Support env)).cppdefines.count d =
        env.cppdefines.count d + 2)) ∧
    (∀ p ∈ newCppPath,
      ((addArduinoEsp32Support (addArduinoEsp32Support env)).cpppath.count p =
        env.cpppath.count p + 2)) ∧
    addArduinoEsp32Support (addArduinoEsp32Support env) ≠
      addArduinoEsp32Support env := by
  refine ⟨rfl, rfl, ?_, ?_, ?_⟩
  · intro d hd
    have h1 : newCppDefines.count d = 1 := by
      fin_cases hd <;> rfl
    simp [addArduinoEsp32Support, List.count_append, h1]
  · intro p hp
    have h1 : newCppPath.count p = 1 := by
      fin_cases hp <;> rfl
    simp [addArduinoEsp32Support, List.count_append, h1]
  · intro h
    have hlen := congrArg (fun e => e.cppdefines.length) h
    simp [addArduinoEsp32Support, newCppDefines] at hlen

/-- Witness for C5: the count and non-idempotence facts at the concrete
environment with empty sequences, with membership discharged for the
first definition. -/
theorem double_invocation_appends_twice_witness :
    ((addArduinoEsp32Support (addArduinoEsp32Support ⟨[], [], []⟩)).cppdefines.count
        (.pair "ARDUINO" (.intVal 200)) =
      ([] : List CppDefine).count (.pair "ARDUINO" (.intVal 200)) + 2) ∧
    ((addArduinoEsp32Support (addArduinoEsp32Support ⟨[], [], []⟩)).cpppath.count
        "${PROJECTSRC_DIR}" =
      ([] : List String).count "${PROJECTSRC_DIR}" + 2) :=
  ⟨(double_invocation_appends_twice ⟨[], [], []⟩).2.2.1 _ (by decide),
   (double_invocation_appends_twice ⟨[], [], []⟩).2.2.2.1 _ (by simp [newCppPath])⟩

/-- Claim C6: the only state the routine changes is the two appended
sequences: every other construction variable of the environment is
unchanged, and the routine is a pure function of the environment (the
embedding has no effect type, matching the absence of filesystem,
network, or process effects in the source). -/
theorem frame_only_two_appends (env : BuildEnvironment) :
    (addArduinoEsp32Support env).otherVars = env.otherVars ∧
    addArduinoEsp32Support env =
      { cppdefines := env.cppdefines ++ newCppDefines,
        cpppath := env.cpppath ++ newCppPath,
        otherVars := env.otherVars } :=
  ⟨rfl, rfl⟩

/-- Claim C7: from definitions = [] and includes = ["/usr/include"],
one invocation yields exactly the six definitions and the include path
"/usr/include" followed by the three templates (for any contents of the
remaining construction variables). -/
theorem scenario_usr_include (ov : List (String × String)) :
    addArduinoEsp32Support ⟨[], ["/usr/include"], ov⟩ =
      ⟨[ .pair "ARDUINO" (.intVal 200),
         .pair "ESP32" (.intVal 1),
         .pair "ESP_PLATFORM" (.intVal 1),
         .pair "F_CPU" (.intVal 240000000),
         .pair "HAVE_CONFIG_H" (.intVal 1),
         .pair "MBEDTLS_CONFIG_FILE" (.strVal "\\\"mbedtls/esp_config.h\\\"") ],
       [ "/usr/include",
         "${PROJECTSRC_DIR}",
         "${PROJECT_DIR}/components/arduino/cores/esp32",
         "${PROJECT_DIR}/components/arduino/variants/esp32" ],
       ov⟩ :=
  rfl

/-- Claim C8: under the stated precondition (the handle exposes the two
mutable sequences, guaranteed by the BuildEnvironment type), the routine
always succeeds: the error-monad embedding returns ok on every input, so
its error branch is unreachable and no failure mode is defined. -/
theorem no_failure_modes (env : BuildEnvironment) :
    addArduinoEsp32SupportE env = Except.ok (addArduinoEsp32Support env) ∧
    ∃ e2, addArduinoEsp32SupportE env = Except.ok e2 :=
  ⟨rfl, addArduinoEsp32Support env, rfl⟩

/-- Claim C9: every one of the six appended preprocessor definitions is
a (name, value) pair; none is a bare name without a value. -/
theorem all_defines_are_pairs :
    newCppDefines.all CppDefine.isPair = true ∧ newCppDefines.length = 6 := by
  decide

/-- Claim C10: the appended suffixes are independent of the prior
contents: for any two environments, the entries appended past the
original length are the same six definitions and three paths. -/
theorem appended_suffix_independent (env1 env2 : BuildEnvironment) :
    (addArduinoEsp32Support env1).cppdefines.drop env1.cppdefines.length =
      (addArduinoEsp32Support env2).cppdefines.drop env2.cppdefines.length ∧
    (addArduinoEsp32Support env1).cpppath.drop env1.cpppath.length =
      (addArduinoEsp32Support env2).cpppath.drop env2.cpppath.length := by
  constructor <;>
    simp [addArduinoEsp32Support, List.drop_left]
